import Mathlib

/-!
Verification development for the react-ts-front-cv repository.

The program under study is the React front-end controller in src/src/App.tsx:
a zone classifier (getObjectsInZone), a navigation decision engine
(generateNavigationInstructions), and an event-driven session controller
(startCamera, stopCamera, processFrame, the auto-process interval effect).

The embedding below translates those functions into Lean.  Numeric pixel
coordinates are modelled as rationals (exact arithmetic for the comparisons
the code performs); the asynchronous controller is modelled as an explicit
state machine: a SessionState record holding the useState fields relevant to
the claims, an Event type for the timer ticks, user actions and request
completions that interleave on the single JS thread, and a step function
giving the effect of each event on the state.  In-flight processing requests
are modelled by a pending list; each entry carries the result value the
processFrame closure captured when the request was issued (React state reads
inside an async callback see the render-time value, while refs such as the
image element width are read live at completion time).
-/

/-- Bounding box in native image pixel coordinates, from the
DetectedObject.bounding_box tuple [x1, y1, x2, y2] in App.tsx. -/
structure BoundingBox where
  x1 : ℚ
  y1 : ℚ
  x2 : ℚ
  y2 : ℚ
deriving DecidableEq

/-- DetectedObject interface from App.tsx. -/
structure DetectedObject where
  label : String
  confidence : ℚ
  bounding_box : BoundingBox
deriving DecidableEq

/-- AttentionStats interface from App.tsx. -/
structure AttentionStats where
  mean : ℚ
  max : ℚ
  std : ℚ
deriving DecidableEq

/-- ProcessingResult interface from App.tsx. -/
structure ProcessingResult where
  caption : String
  detected_objects : List DetectedObject
  guidance : String
  model_used : String
  fusion_enabled : Bool
  llm_description : Option String := none
  attention_stats : Option AttentionStats := none
deriving DecidableEq

/-- The three lateral zones used by getObjectsInZone. -/
inductive Zone where
  | left
  | front
  | right
deriving DecidableEq

/-- NavigationInstruction.direction values from App.tsx. -/
inductive Direction where
  | left
  | right
  | forward
  | stop
deriving DecidableEq

/-- NavigationInstruction.priority values from App.tsx. -/
inductive Priority where
  | safe
  | caution
  | danger
deriving DecidableEq

/-- NavigationInstruction interface from App.tsx. -/
structure NavigationInstruction where
  direction : Direction
  priority : Priority
  message : String
  reason : String
deriving DecidableEq

/-- Horizontal center of a bounding box: centerX = (x1 + x2) / 2 in
getObjectsInZone. -/
def centerX (bb : BoundingBox) : ℚ := (bb.x1 + bb.x2) / 2

/-- Effective width used by getObjectsInZone:
`imgRef.current?.naturalWidth || 640`.  A missing image element gives
undefined and a zero naturalWidth is falsy, so both fall back to 640. -/
def widthOrDefault (naturalWidth : Option ℚ) : ℚ :=
  match naturalWidth with
  | none => 640
  | some w => if w = 0 then 640 else w

/-- The zone membership test inside the getObjectsInZone filter:
right when centerX < width / 3, left when centerX > 2 * width / 3,
front when width / 3 <= centerX <= 2 * width / 3. -/
def inZoneB (zone : Zone) (width : ℚ) (obj : DetectedObject) : Bool :=
  match zone with
  | Zone.right => decide (centerX obj.bounding_box < width / 3)
  | Zone.left => decide (centerX obj.bounding_box > 2 * width / 3)
  | Zone.front =>
      decide (width / 3 ≤ centerX obj.bounding_box)
        && decide (centerX obj.bounding_box ≤ 2 * width / 3)

/-- getObjectsInZone from App.tsx: reads the held result and the live image
width, returns the detected objects whose center falls in the zone;
an absent result yields the empty list. -/
def getObjectsInZone (result : Option ProcessingResult)
    (naturalWidth : Option ℚ) (zone : Zone) : List DetectedObject :=
  match result with
  | none => []
  | some r => r.detected_objects.filter (inZoneB zone (widthOrDefault naturalWidth))

/-- The fixed dangerousObjects list in generateNavigationInstructions. -/
def dangerousObjects : List String :=
  ["person", "car", "truck", "bicycle", "motorcycle", "chair", "table",
   "bench", "couch", "bed"]

/-- Model of toLowerCase in JS (ASCII lowering, which covers every label the
code compares); written as a direct character-list map so that it evaluates
by kernel reduction. -/
def toLowerCase (s : String) : String := String.mk (s.data.map Char.toLower)

/-- The obstacle filter in generateNavigationInstructions:
`dangerousObjects.includes(obj.label.toLowerCase())`, generalized over the
obstacle label list. -/
def isDangerous (obstacles : List String) (o : DetectedObject) : Bool :=
  obstacles.contains (toLowerCase o.label)

/-- Label join used in the reason strings: map each object to its label and
join with the comma-space separator, as the code does. -/
def joinLabels (objs : List DetectedObject) : String :=
  String.intercalate ", " (objs.map (fun o => o.label))

/-- generateNavigationInstructions from App.tsx, generalized over the
obstacle label list (the code fixes it to dangerousObjects).  The zone
partition reads the result and image width the closure sees; the objects
argument is used only in the final reason string, exactly as in the code. -/
def generateNavigationInstructionsWith (obstacles : List String)
    (result : Option ProcessingResult) (naturalWidth : Option ℚ)
    (objects : List DetectedObject) : NavigationInstruction :=
  let leftObjects := getObjectsInZone result naturalWidth Zone.left
  let frontObjects := getObjectsInZone result naturalWidth Zone.front
  let rightObjects := getObjectsInZone result naturalWidth Zone.right
  let leftDanger := leftObjects.filter (isDangerous obstacles)
  let frontDanger := frontObjects.filter (isDangerous obstacles)
  let rightDanger := rightObjects.filter (isDangerous obstacles)
  if frontDanger.length > 0 then
    if leftDanger.length = 0 then
      { direction := Direction.left, priority := Priority.caution,
        message := "Path blocked ahead. Move left.",
        reason := "Obstacle detected: " ++ joinLabels frontDanger }
    else if rightDanger.length = 0 then
      { direction := Direction.right, priority := Priority.caution,
        message := "Path blocked ahead. Move right.",
        reason := "Obstacle detected: " ++ joinLabels frontDanger }
    else
      { direction := Direction.stop, priority := Priority.danger,
        message := "Stop! Obstacles in all directions.",
        reason := "Multiple obstacles detected" }
  else if leftObjects.length = 0 ∧ rightObjects.length = 0 then
    { direction := Direction.forward, priority := Priority.safe,
      message := "Clear path ahead. Safe to proceed.",
      reason := "No obstacles detected" }
  else if leftDanger.length > 0 ∧ rightDanger.length = 0 then
    { direction := Direction.right, priority := Priority.caution,
      message := "Obstacle on left. Stay right.",
      reason := "Left side: " ++ joinLabels leftDanger }
  else if rightDanger.length > 0 ∧ leftDanger.length = 0 then
    { direction := Direction.left, priority := Priority.caution,
      message := "Obstacle on right. Stay left.",
      reason := "Right side: " ++ joinLabels rightDanger }
  else
    { direction := Direction.forward, priority := Priority.caution,
      message := "Proceed with caution. Objects nearby.",
      reason := "Detected: " ++ joinLabels (objects.take 3) }

/-- generateNavigationInstructions with the fixed dangerousObjects list,
as in App.tsx. -/
def generateNavigationInstructions (result : Option ProcessingResult)
    (naturalWidth : Option ℚ) (objects : List DetectedObject) :
    NavigationInstruction :=
  generateNavigationInstructionsWith dangerousObjects result naturalWidth objects

/-- Modelled from the spec, section 4.1: the single zone classifier
`zone_of(bbox, image_width)`, written from the words of the spec (RIGHT when
the center is strictly below one third of the width, LEFT when strictly
above two thirds, FRONT otherwise, boundaries closed on the FRONT side). -/
def zone_of (bb : BoundingBox) (w : ℚ) : Zone :=
  if centerX bb < w / 3 then Zone.right
  else if centerX bb > 2 * w / 3 then Zone.left
  else Zone.front

/-- Modelled from the spec, section 4.2: the decision engine written from
the seven spec rules in order, first match wins.  Step 1 partitions the
objects argument by zone_of, step 2 filters each zone set case-insensitively
by the obstacle label set, step 3 is the rule cascade. -/
def navDecisionSpec (obstacles : List String) (objects : List DetectedObject)
    (w : ℚ) : NavigationInstruction :=
  let leftZone := objects.filter (fun o => decide (zone_of o.bounding_box w = Zone.left))
  let frontZone := objects.filter (fun o => decide (zone_of o.bounding_box w = Zone.front))
  let rightZone := objects.filter (fun o => decide (zone_of o.bounding_box w = Zone.right))
  let leftObs := leftZone.filter (isDangerous obstacles)
  let frontObs := frontZone.filter (isDangerous obstacles)
  let rightObs := rightZone.filter (isDangerous obstacles)
  if frontObs ≠ [] then
    if leftObs = [] then
      { direction := Direction.left, priority := Priority.caution,
        message := "Path blocked ahead. Move left.",
        reason := "Obstacle detected: " ++ joinLabels frontObs }
    else if rightObs = [] then
      { direction := Direction.right, priority := Priority.caution,
        message := "Path blocked ahead. Move right.",
        reason := "Obstacle detected: " ++ joinLabels frontObs }
    else
      { direction := Direction.stop, priority := Priority.danger,
        message := "Stop! Obstacles in all directions.",
        reason := "Multiple obstacles detected" }
  else if leftZone = [] ∧ rightZone = [] then
    { direction := Direction.forward, priority := Priority.safe,
      message := "Clear path ahead. Safe to proceed.",
      reason := "No obstacles detected" }
  else if leftObs ≠ [] ∧ rightObs = [] then
    { direction := Direction.right, priority := Priority.caution,
      message := "Obstacle on left. Stay right.",
      reason := "Left side: " ++ joinLabels leftObs }
  else if rightObs ≠ [] ∧ leftObs = [] then
    { direction := Direction.left, priority := Priority.caution,
      message := "Obstacle on right. Stay left.",
      reason := "Right side: " ++ joinLabels rightObs }
  else
    { direction := Direction.forward, priority := Priority.caution,
      message := "Proceed with caution. Objects nearby.",
      reason := "Detected: " ++ joinLabels (objects.take 3) }

/-- Response envelope for process_camera, as read by processFrame.  Fields
are Options; some models presence of a truthy value under the corresponding
JSON key (`data`, the flat result fields, and the four possible locations of
the annotated image payload). -/
structure Envelope where
  data : Option ProcessingResult := none
  caption : Option String := none
  detected_objects : Option (List DetectedObject) := none
  guidance : Option String := none
  model_used : Option String := none
  fusion_enabled : Option Bool := none
  llm_description : Option String := none
  attention_stats : Option AttentionStats := none
  annotated_image_base64 : Option String := none
  data_annotated_image_base64 : Option String := none
  annotated_image : Option String := none
  data_annotated_image : Option String := none
deriving DecidableEq

/-- Result extraction in processFrame: `data.data` wins when present,
otherwise the flat shape is accepted when `data.caption` is truthy
(non-empty) and `data.detected_objects` is present; any other shape is
rejected (the code sets the invalid-structure error and returns). -/
def extractResult (env : Envelope) : Option ProcessingResult :=
  match env.data with
  | some r => some r
  | none =>
    match env.caption, env.detected_objects with
    | some c, some objs =>
        if c = "" then none
        else
          some
            { caption := c, detected_objects := objs,
              guidance := env.guidance.getD "",
              model_used := env.model_used.getD "",
              fusion_enabled := env.fusion_enabled.getD false,
              llm_description := env.llm_description,
              attention_stats := env.attention_stats }
    | _, _ => none

/-- Annotated image lookup in processFrame, in the code order:
top-level annotated_image_base64, then data.data.annotated_image_base64,
then top-level annotated_image, then data.data.annotated_image. -/
def findAnnotatedImage (env : Envelope) : Option String :=
  match env.annotated_image_base64 with
  | some s => some s
  | none =>
    match env.data, env.data_annotated_image_base64 with
    | some _, some s => some s
    | _, _ =>
      match env.annotated_image with
      | some s => some s
      | none =>
        match env.data, env.data_annotated_image with
        | some _, some s => some s
        | _, _ => none

/-- Normalization of the annotated image payload in processFrame: trim,
then keep a data URL as is and prefix a bare base64 string. -/
def normalizeImageData (s : String) : String :=
  let t := s.trim
  if t.startsWith "data:image" then t else "data:image/jpeg;base64," ++ t

/-- JS `value || fallback` on an optional string: undefined and the empty
string both give the fallback. -/
def falsyD (s : Option String) (d : String) : String :=
  match s with
  | none => d
  | some v => if v = "" then d else v

/-- Environment an in-flight processFrame call carries: the result value the
closure captured when the request was issued (React state reads inside the
async callback see the render-time value). -/
structure RequestSnapshot where
  result : Option ProcessingResult
deriving DecidableEq

/-- The useState fields of App.tsx relevant to the claims, plus the live
image width (a ref, read at call time) and the list of in-flight processing
requests.  Fields not touched by any claim (selectedMode, showDirections,
showBoundingBoxes, serverStatus, cameraIndex) are omitted. -/
structure SessionState where
  isCameraRunning : Bool
  isProcessing : Bool
  autoProcess : Bool
  voiceEnabled : Bool
  result : Option ProcessingResult
  navigationInstructions : Option NavigationInstruction
  frameCount : Nat
  error : String
  annotatedImage : Option String
  naturalWidth : Option ℚ
  pending : List RequestSnapshot
deriving DecidableEq

/-- Initial values of the useState fields in App.tsx. -/
def initState : SessionState :=
  { isCameraRunning := false, isProcessing := false, autoProcess := false,
    voiceEnabled := false, result := none, navigationInstructions := none,
    frameCount := 0, error := "", annotatedImage := none,
    naturalWidth := none, pending := [] }

/-- Events that interleave on the single JS thread: user actions, the two
timers, and the completions of in-flight processing requests. -/
inductive Event where
  | startCameraOk
  | startCameraFail (msg : Option String)
  | stopCamera
  | toggleAutoProcess (b : Bool)
  | toggleVoice (b : Bool)
  | frameTick
  | autoTick
  | manualProcessClick
  | completeSuccess (env : Envelope)
  | completeHttpError (detail : Option String)
  | completeNetworkError

/-- Synchronous prefix of processFrame: the camera guard, then
setIsProcessing(true), setError(to empty) and the dispatch of the request
(appended to the pending list with the captured result value). -/
def processFrameStart (st : SessionState) : SessionState :=
  if st.isCameraRunning then
    { st with
      isProcessing := true, error := "",
      pending := st.pending ++ [{ result := st.result }] }
  else
    { st with error := "Please start the camera first" }

/-- Continuation of processFrame on a 2xx response: extract the result
(setting the invalid-structure error and stopping on a malformed envelope),
apply it, overwrite the annotated image with the normalized payload or null,
then set the navigation instruction exactly when the new result has at least
one detected object, computing it from the closure-captured result and the
live image width; finally setIsProcessing(false). -/
def applyProcessSuccess (st : SessionState) (snap : RequestSnapshot)
    (env : Envelope) : SessionState :=
  match extractResult env with
  | none =>
      { st with error := "Invalid API response structure", isProcessing := false }
  | some resultData =>
      let navInstr : Option NavigationInstruction :=
        if resultData.detected_objects.isEmpty then none
        else some (generateNavigationInstructions snap.result st.naturalWidth
          resultData.detected_objects)
      { st with
        result := some resultData, error := "",
        annotatedImage := (findAnnotatedImage env).map normalizeImageData,
        navigationInstructions := navInstr,
        isProcessing := false }

/-- Effect of one event on the session state, translated from App.tsx:
startCamera success and failure, stopCamera (success path), the two toggle
checkboxes (auto-process is disabled while the camera is off), the display
refresh tick, the auto-process tick (fires whenever the interval exists,
that is while autoProcess and isCameraRunning both hold — it does not look
at isProcessing), the manual process button (disabled while the camera is
off, a request is in flight, or auto-process is on), and the three ways an
in-flight request can complete. -/
def step (st : SessionState) (e : Event) : SessionState :=
  match e with
  | Event.startCameraOk => { st with isCameraRunning := true, error := "" }
  | Event.startCameraFail msg =>
      { st with error := falsyD msg "Failed to start camera" }
  | Event.stopCamera =>
      { st with
        isCameraRunning := false, autoProcess := false,
        frameCount := 0, result := none, navigationInstructions := none,
        annotatedImage := none }
  | Event.toggleAutoProcess b =>
      if st.isCameraRunning then { st with autoProcess := b } else st
  | Event.toggleVoice b => { st with voiceEnabled := b }
  | Event.frameTick =>
      if st.isCameraRunning then { st with frameCount := st.frameCount + 1 } else st
  | Event.autoTick =>
      if st.autoProcess && st.isCameraRunning then processFrameStart st else st
  | Event.manualProcessClick =>
      if st.isCameraRunning && !st.isProcessing && !st.autoProcess then
        processFrameStart st
      else st
  | Event.completeSuccess env =>
      match st.pending with
      | [] => st
      | snap :: rest => applyProcessSuccess { st with pending := rest } snap env
  | Event.completeHttpError detail =>
      match st.pending with
      | [] => st
      | _ :: rest =>
          { st with
            pending := rest, error := falsyD detail "Processing failed",
            annotatedImage := none, isProcessing := false }
  | Event.completeNetworkError =>
      match st.pending with
      | [] => st
      | _ :: rest =>
          { st with
            pending := rest, error := "Error processing frame",
            annotatedImage := none, isProcessing := false }

/-- Run of the controller: fold the step function over an event list from
the initial state.  Reachable states are exactly the values of run. -/
def run (events : List Event) : SessionState :=
  events.foldl step initState

/-- Chair object of spec scenario C: bbox center_x = 150. -/
def chairObj : DetectedObject :=
  { label := "chair", confidence := 9/10,
    bounding_box := { x1 := 100, y1 := 100, x2 := 200, y2 := 200 } }

/-- Person object of spec scenario D: bbox center_x = 320. -/
def personObj : DetectedObject :=
  { label := "person", confidence := 95/100,
    bounding_box := { x1 := 300, y1 := 100, x2 := 340, y2 := 200 } }

/-- Table object of spec scenario D: bbox center_x = 550. -/
def tableObj : DetectedObject :=
  { label := "table", confidence := 8/10,
    bounding_box := { x1 := 500, y1 := 100, x2 := 600, y2 := 200 } }

/-- Processing result holding only the scenario C chair. -/
def scenarioCResult : ProcessingResult :=
  { caption := "a chair", detected_objects := [chairObj], guidance := "",
    model_used := "basic", fusion_enabled := false }

/-- Processing result holding the three scenario D objects. -/
def scenarioDResult : ProcessingResult :=
  { caption := "a room", detected_objects := [personObj, tableObj, chairObj],
    guidance := "", model_used := "basic", fusion_enabled := false }

/-- Processing result with an empty object list. -/
def emptyResult : ProcessingResult :=
  { caption := "an empty scene", detected_objects := [], guidance := "",
    model_used := "basic", fusion_enabled := false }

/-- Envelope wrapping the scenario C result under the data key. -/
def envelopeC : Envelope := { data := some scenarioCResult }

/-- Envelope wrapping the empty result under the data key. -/
def envelopeEmpty : Envelope := { data := some emptyResult }

/-- Bridge between the three membership tests of getObjectsInZone and the
single classifier zone_of of the spec: for a nonnegative width they agree
pointwise. -/
lemma inZoneB_eq_zoneOf (w : ℚ) (hw : 0 ≤ w) (o : DetectedObject) (z : Zone) :
    inZoneB z w o = decide (zone_of o.bounding_box w = z) := by
  have h3 : w / 3 ≤ 2 * w / 3 := by linarith
  unfold inZoneB zone_of
  by_cases h1 : centerX o.bounding_box < w / 3
  · cases z with
    | right => simp [h1]
    | left =>
        have hn : ¬(centerX o.bounding_box > 2 * w / 3) := by linarith
        simp [h1, hn]
    | front =>
        have hn : ¬(w / 3 ≤ centerX o.bounding_box) := by linarith
        simp [h1, hn]
  · by_cases h2 : centerX o.bounding_box > 2 * w / 3
    · cases z with
      | left => simp [h1, h2]
      | right => simp [h1, h2]
      | front =>
          have hn : ¬(centerX o.bounding_box ≤ 2 * w / 3) := by linarith
          simp [h1, h2, hn]
    · cases z with
      | left => simp [h1, h2]
      | right => simp [h1, h2]
      | front =>
          have ha : w / 3 ≤ centerX o.bounding_box := le_of_not_lt h1
          have hb : centerX o.bounding_box ≤ 2 * w / 3 := le_of_not_lt h2
          simp [h1, h2, ha, hb]

/-- Filter form of the bridge lemma, applied to a whole object list. -/
lemma zoneFilter_eq (w : ℚ) (hw : 0 ≤ w) (objects : List DetectedObject)
    (z : Zone) :
    objects.filter (inZoneB z w)
      = objects.filter (fun o => decide (zone_of o.bounding_box w = z)) :=
  List.filter_congr (fun o _ => inZoneB_eq_zoneOf w hw o z)

/-- C4: zone boundary inclusivity and mirrored mapping.  For every bounding
box and every positive image width, a center strictly below width / 3 passes
only the RIGHT membership test, a center strictly above 2 * width / 3 passes
only the LEFT test, and a center exactly at width / 3 or 2 * width / 3
passes only the FRONT test, never LEFT or RIGHT. -/
theorem c4_zone_boundaries (o : DetectedObject) (w : ℚ) (hw : 0 < w) :
    (centerX o.bounding_box < w / 3 →
      inZoneB Zone.right w o = true ∧ inZoneB Zone.left w o = false
        ∧ inZoneB Zone.front w o = false)
    ∧ (centerX o.bounding_box > 2 * w / 3 →
      inZoneB Zone.left w o = true ∧ inZoneB Zone.right w o = false
        ∧ inZoneB Zone.front w o = false)
    ∧ (centerX o.bounding_box = w / 3 ∨ centerX o.bounding_box = 2 * w / 3 →
      inZoneB Zone.front w o = true ∧ inZoneB Zone.left w o = false
        ∧ inZoneB Zone.right w o = false) := by
  have h3 : w / 3 ≤ 2 * w / 3 := by linarith
  unfold inZoneB
  refine ⟨fun h => ?_, fun h => ?_, fun h => ?_⟩
  · have hn1 : ¬(centerX o.bounding_box > 2 * w / 3) := by linarith
    have hn2 : ¬(w / 3 ≤ centerX o.bounding_box) := by linarith
    simp [h, hn1, hn2]
  · have hn1 : ¬(centerX o.bounding_box < w / 3) := by linarith
    have hn2 : ¬(centerX o.bounding_box ≤ 2 * w / 3) := by linarith
    simp [h, hn1, hn2]
  · rcases h with h | h
    · have ha : w / 3 ≤ centerX o.bounding_box := le_of_eq h.symm
      have hb : centerX o.bounding_box ≤ 2 * w / 3 := by rw [h]; exact h3
      have hn1 : ¬(centerX o.bounding_box > 2 * w / 3) := by linarith
      have hn2 : ¬(centerX o.bounding_box < w / 3) := by linarith
      simp [ha, hb, hn1, hn2]
    · have ha : w / 3 ≤ centerX o.bounding_box := by rw [h]; exact h3
      have hb : centerX o.bounding_box ≤ 2 * w / 3 := le_of_eq h
      have hn1 : ¬(centerX o.bounding_box > 2 * w / 3) := by linarith
      have hn2 : ¬(centerX o.bounding_box < w / 3) := by linarith
      simp [ha, hb, hn1, hn2]

/-- Object whose bounding box center sits exactly at one third of a width
of 3 (center 1 = 3 / 3). -/
def boundaryObj : DetectedObject :=
  { label := "person", confidence := 1,
    bounding_box := { x1 := 0, y1 := 0, x2 := 2, y2 := 2 } }

/-- Witness for c4_zone_boundaries: at width 3 the boundary object with
center exactly at width / 3 is classified FRONT, not LEFT or RIGHT. -/
theorem c4_zone_boundaries_witness :
    inZoneB Zone.front 3 boundaryObj = true
    ∧ inZoneB Zone.left 3 boundaryObj = false
    ∧ inZoneB Zone.right 3 boundaryObj = false :=
  (c4_zone_boundaries boundaryObj 3 (by norm_num)).2.2
    (Or.inl (by norm_num [centerX, boundaryObj]))

/-- C10: zone partition.  For every bounding box and every nonnegative image
width, exactly one of the three zone membership tests of getObjectsInZone
holds, so every detected object belongs to exactly one zone. -/
theorem c10_zone_partition (o : DetectedObject) (w : ℚ) (hw : 0 ≤ w) :
    ∃! z : Zone, inZoneB z w o = true := by
  have h3 : w / 3 ≤ 2 * w / 3 := by linarith
  by_cases h : centerX o.bounding_box < w / 3
  · refine ⟨Zone.right, by simp [inZoneB, h], fun z hz => ?_⟩
    cases z with
    | right => rfl
    | left =>
        simp only [inZoneB, decide_eq_true_eq] at hz
        linarith
    | front =>
        simp only [inZoneB, Bool.and_eq_true, decide_eq_true_eq] at hz
        linarith [hz.1]
  · push_neg at h
    by_cases h2 : centerX o.bounding_box ≤ 2 * w / 3
    · refine ⟨Zone.front, ?_, fun z hz => ?_⟩
      · simp only [inZoneB, Bool.and_eq_true, decide_eq_true_eq]
        exact ⟨h, h2⟩
      · cases z with
        | front => rfl
        | left =>
            simp only [inZoneB, decide_eq_true_eq] at hz
            linarith
        | right =>
            simp only [inZoneB, decide_eq_true_eq] at hz
            linarith
    · push_neg at h2
      refine ⟨Zone.left, ?_, fun z hz => ?_⟩
      · simp only [inZoneB, decide_eq_true_eq]
        exact h2
      · cases z with
        | left => rfl
        | right =>
            simp only [inZoneB, decide_eq_true_eq] at hz
            linarith
        | front =>
            simp only [inZoneB, Bool.and_eq_true, decide_eq_true_eq] at hz
            linarith [hz.2]

/-- Witness for c10_zone_partition: at width 640 the scenario C chair
belongs to exactly one zone. -/
theorem c10_zone_partition_witness :
    ∃! z : Zone, inZoneB z 640 chairObj = true :=
  c10_zone_partition chairObj 640 (by norm_num)

/-- C3: the navigation decision tree.  For every obstacle label set, every
processing result and every image width reading with nonnegative effective
width, generateNavigationInstructions agrees with the seven spec rules of
section 4.2 (navDecisionSpec) evaluated in order with first match winning;
and on the concrete scenario C input (single chair with center 150 at width
640) it returns the LEFT / CAUTION instruction with reason Right side:
chair, while on the scenario D input (obstacles in all three zones) it
returns the STOP / DANGER instruction. -/
theorem c3_decision_tree :
    (∀ (obstacles : List String) (r : ProcessingResult) (nw : Option ℚ),
        0 ≤ widthOrDefault nw →
        generateNavigationInstructionsWith obstacles (some r) nw r.detected_objects
          = navDecisionSpec obstacles r.detected_objects (widthOrDefault nw))
    ∧ generateNavigationInstructions (some scenarioCResult) (some 640)
        scenarioCResult.detected_objects
        = { direction := Direction.left, priority := Priority.caution,
            message := "Obstacle on right. Stay left.",
            reason := "Right side: chair" }
    ∧ generateNavigationInstructions (some scenarioDResult) (some 640)
        scenarioDResult.detected_objects
        = { direction := Direction.stop, priority := Priority.danger,
            message := "Stop! Obstacles in all directions.",
            reason := "Multiple obstacles detected" } := by
  refine ⟨?_, ?_, ?_⟩
  · intro obstacles r nw hw
    unfold generateNavigationInstructionsWith navDecisionSpec getObjectsInZone
    simp only [zoneFilter_eq (widthOrDefault nw) hw r.detected_objects]
    simp only [gt_iff_lt, List.length_pos, List.length_eq_zero]
  · have hr : getObjectsInZone (some scenarioCResult) (some 640) Zone.right
        = [chairObj] := by
      norm_num [getObjectsInZone, inZoneB, centerX, widthOrDefault,
        scenarioCResult, chairObj, List.filter]
    have hl : getObjectsInZone (some scenarioCResult) (some 640) Zone.left = [] := by
      norm_num [getObjectsInZone, inZoneB, centerX, widthOrDefault,
        scenarioCResult, chairObj, List.filter]
    have hf : getObjectsInZone (some scenarioCResult) (some 640) Zone.front = [] := by
      norm_num [getObjectsInZone, inZoneB, centerX, widthOrDefault,
        scenarioCResult, chairObj, List.filter]
    simp only [generateNavigationInstructions, generateNavigationInstructionsWith,
      hr, hl, hf]
    decide
  · have hr : getObjectsInZone (some scenarioDResult) (some 640) Zone.right
        = [chairObj] := by
      norm_num [getObjectsInZone, inZoneB, centerX, widthOrDefault,
        scenarioDResult, chairObj, personObj, tableObj, List.filter]
    have hl : getObjectsInZone (some scenarioDResult) (some 640) Zone.left
        = [tableObj] := by
      norm_num [getObjectsInZone, inZoneB, centerX, widthOrDefault,
        scenarioDResult, chairObj, personObj, tableObj, List.filter]
    have hf : getObjectsInZone (some scenarioDResult) (some 640) Zone.front
        = [personObj] := by
      norm_num [getObjectsInZone, inZoneB, centerX, widthOrDefault,
        scenarioDResult, chairObj, personObj, tableObj, List.filter]
    simp only [generateNavigationInstructions, generateNavigationInstructionsWith,
      hr, hl, hf]
    decide

/-- Witness for c3_decision_tree: the refinement instantiated at the
scenario C input with the fixed obstacle list and width 640. -/
theorem c3_decision_tree_witness :
    generateNavigationInstructionsWith dangerousObjects (some scenarioCResult)
        (some 640) scenarioCResult.detected_objects
      = navDecisionSpec dangerousObjects scenarioCResult.detected_objects
          (widthOrDefault (some 640)) :=
  c3_decision_tree.1 dangerousObjects scenarioCResult (some 640)
    (by norm_num [widthOrDefault])

/-- C7: empty-input decision.  Applied to a result with an empty object list
(no objects in any zone), the decision engine returns exactly the FORWARD /
SAFE instruction with the clear-path message and no-obstacles reason. -/
theorem c7_empty_input :
    generateNavigationInstructions (some emptyResult) (some 640) []
      = { direction := Direction.forward, priority := Priority.safe,
          message := "Clear path ahead. Safe to proceed.",
          reason := "No obstacles detected" } := by decide

/-- C5 counterexample: with an image width of exactly zero, the code does
not fail with any error — the falsy fallback `|| 640` substitutes the
default width 640 and getObjectsInZone classifies normally, here placing
the scenario C chair in the RIGHT zone. -/
theorem c5_counterexample :
    widthOrDefault (some 0) = 640
    ∧ getObjectsInZone (some scenarioCResult) (some 0) Zone.right = [chairObj] := by
  constructor
  · decide
  · norm_num [getObjectsInZone, inZoneB, centerX, widthOrDefault,
      scenarioCResult, chairObj, List.filter]

/-- Processing a successful response never touches the scheduler flags:
applyProcessSuccess leaves autoProcess and isCameraRunning unchanged. -/
lemma applyProcessSuccess_flags (st : SessionState) (snap : RequestSnapshot)
    (env : Envelope) :
    (applyProcessSuccess st snap env).autoProcess = st.autoProcess
    ∧ (applyProcessSuccess st snap env).isCameraRunning = st.isCameraRunning := by
  unfold applyProcessSuccess
  split
  · exact ⟨rfl, rfl⟩
  · exact ⟨rfl, rfl⟩

/-- C5 amended: a zero image width is treated as absent by the falsy
fallback, so classification at width zero coincides with classification at
the default width 640 for every result and zone (no InvalidDimension error
exists and no division-by-zero result is produced), and no request
completion stops the scheduler: the camera-running and auto-process flags
are untouched by completeSuccess. -/
theorem c5_amended (r : Option ProcessingResult) (z : Zone) :
    getObjectsInZone r (some 0) z = getObjectsInZone r (some 640) z
    ∧ (∀ (st : SessionState) (env : Envelope),
        (step st (Event.completeSuccess env)).autoProcess = st.autoProcess
        ∧ (step st (Event.completeSuccess env)).isCameraRunning = st.isCameraRunning) := by
  constructor
  · cases r <;> rfl
  · intro st env
    simp only [step]
    cases hp : st.pending with
    | nil => exact ⟨rfl, rfl⟩
    | cons snap rest =>
        exact ⟨(applyProcessSuccess_flags _ snap env).1,
          (applyProcessSuccess_flags _ snap env).2⟩

/-- Trace that starts the camera, enables auto-process, and lets the
auto-process timer fire once: one request is now in flight. -/
def c1Trace : List Event :=
  [Event.startCameraOk, Event.toggleAutoProcess true, Event.autoTick]

/-- C1 counterexample: with the camera running, auto-process enabled and a
request still in flight (isProcessing holds after the first tick), a second
auto-process tick issues a second request instead of being skipped — two
requests are then in flight at once. -/
theorem c1_counterexample :
    (run c1Trace).isCameraRunning = true
    ∧ (run c1Trace).autoProcess = true
    ∧ (run c1Trace).isProcessing = true
    ∧ (run c1Trace).pending.length = 1
    ∧ (step (run c1Trace) Event.autoTick).pending.length = 2 := by decide

/-- C1 amended: the manual process trigger is a no-op while a request is in
flight, but the auto-process tick does not consult isProcessing — whenever
auto-process and the camera-running flag hold, a tick appends a new request
to the in-flight list unconditionally. -/
theorem c1_amended (st : SessionState) :
    (st.autoProcess = true → st.isCameraRunning = true →
      (step st Event.autoTick).pending.length = st.pending.length + 1)
    ∧ (st.isProcessing = true → step st Event.manualProcessClick = st) := by
  constructor
  · intro h1 h2
    simp [step, processFrameStart, h1, h2]
  · intro h
    simp [step, h]

/-- Witness for c1_amended at the concrete one-request-in-flight state. -/
theorem c1_amended_witness :
    (step (run c1Trace) Event.autoTick).pending.length
      = (run c1Trace).pending.length + 1 :=
  (c1_amended (run c1Trace)).1 rfl rfl

/-- Trace that starts the camera, issues a manual processing request, and
stops the camera while the request is still in flight. -/
def c2Trace : List Event :=
  [Event.startCameraOk, Event.manualProcessClick, Event.stopCamera]

/-- C2 counterexample: after stopCamera completes, result and instruction
are cleared, but the in-flight request is neither cancelled nor guarded;
when it resolves successfully, its result and a navigation instruction are
applied even though the camera is no longer running. -/
theorem c2_counterexample :
    (run c2Trace).isCameraRunning = false
    ∧ (run c2Trace).result = none
    ∧ (run c2Trace).navigationInstructions = none
    ∧ (run c2Trace).pending.length = 1
    ∧ (run (c2Trace ++ [Event.completeSuccess envelopeC])).isCameraRunning = false
    ∧ (run (c2Trace ++ [Event.completeSuccess envelopeC])).result = some scenarioCResult
    ∧ (run (c2Trace ++ [Event.completeSuccess envelopeC])).navigationInstructions.isSome
        = true := by
  refine ⟨rfl, rfl, rfl, rfl, ?_, ?_, ?_⟩ <;>
    simp [run, c2Trace, step, initState, processFrameStart, applyProcessSuccess,
      extractResult, envelopeC, scenarioCResult]

/-- C2 amended: stopCamera leaves the in-flight request list untouched, and
a pending request that later resolves with a well-formed envelope applies
its extracted result to the session state regardless of the camera flag. -/
theorem c2_amended (st : SessionState) (snap : RequestSnapshot)
    (rest : List RequestSnapshot) (env : Envelope) (rd : ProcessingResult)
    (hp : st.pending = snap :: rest) (he : extractResult env = some rd) :
    (step st Event.stopCamera).pending = st.pending
    ∧ (step st (Event.completeSuccess env)).result = some rd := by
  constructor
  · rfl
  · simp only [step, hp, applyProcessSuccess, he]

/-- Witness for c2_amended at the concrete stopped-with-pending state. -/
theorem c2_amended_witness :
    (step (run c2Trace) (Event.completeSuccess envelopeC)).result
      = some scenarioCResult :=
  (c2_amended (run c2Trace) { result := none } [] envelopeC scenarioCResult
    rfl rfl).2

/-- Trace that starts the camera, enables voice guidance, and stops the
camera. -/
def c8Trace : List Event :=
  [Event.startCameraOk, Event.toggleVoice true, Event.stopCamera]

/-- C8 counterexample: stopCamera does not reset the voice-enabled flag —
after enabling voice and stopping the camera the flag still holds, while
its initial value is false. -/
theorem c8_counterexample :
    (run c8Trace).voiceEnabled = true ∧ initState.voiceEnabled = false := by
  decide

/-- C8 amended: stopCamera resets the camera-running flag, the auto-process
flag, the held result, the held instruction, the frame counter and the
annotated image to their initial values, but leaves the voice-enabled flag
unchanged. -/
theorem c8_amended (st : SessionState) :
    (step st Event.stopCamera).isCameraRunning = initState.isCameraRunning
    ∧ (step st Event.stopCamera).autoProcess = initState.autoProcess
    ∧ (step st Event.stopCamera).result = initState.result
    ∧ (step st Event.stopCamera).navigationInstructions
        = initState.navigationInstructions
    ∧ (step st Event.stopCamera).frameCount = initState.frameCount
    ∧ (step st Event.stopCamera).annotatedImage = initState.annotatedImage
    ∧ (step st Event.stopCamera).voiceEnabled = st.voiceEnabled :=
  ⟨rfl, rfl, rfl, rfl, rfl, rfl, rfl⟩

/-- Truth of "the latest result is present and contains at least one
detected object" for a session state. -/
def resultHasObjects (st : SessionState) : Bool :=
  match st.result with
  | none => false
  | some r => !r.detected_objects.isEmpty

/-- The instruction-presence invariant: a navigation instruction is held
exactly when the latest result is present and non-empty. -/
def instructionInvariant (st : SessionState) : Prop :=
  st.navigationInstructions.isSome = resultHasObjects st

/-- processFrameStart changes neither the held result nor the held
instruction, so it preserves the instruction-presence invariant. -/
lemma instructionInvariant_processFrameStart (st : SessionState)
    (h : instructionInvariant st) :
    instructionInvariant (processFrameStart st) := by
  unfold processFrameStart
  split
  · exact h
  · exact h

/-- Every event preserves the instruction-presence invariant. -/
lemma instructionInvariant_step (st : SessionState) (e : Event)
    (h : instructionInvariant st) : instructionInvariant (step st e) := by
  cases e with
  | startCameraOk => exact h
  | startCameraFail msg => exact h
  | stopCamera => rfl
  | toggleAutoProcess b =>
      simp only [step]
      split
      · exact h
      · exact h
  | toggleVoice b => exact h
  | frameTick =>
      simp only [step]
      split
      · exact h
      · exact h
  | autoTick =>
      simp only [step]
      split
      · exact instructionInvariant_processFrameStart st h
      · exact h
  | manualProcessClick =>
      simp only [step]
      split
      · exact instructionInvariant_processFrameStart st h
      · exact h
  | completeSuccess env =>
      simp only [step]
      cases hp : st.pending with
      | nil => exact h
      | cons snap rest =>
          unfold applyProcessSuccess
          cases he : extractResult env with
          | none => exact h
          | some rd =>
              simp only [instructionInvariant, resultHasObjects]
              cases hobj : rd.detected_objects.isEmpty <;> simp [hobj]
  | completeHttpError detail =>
      simp only [step]
      cases hp : st.pending with
      | nil => exact h
      | cons snap rest => exact h
  | completeNetworkError =>
      simp only [step]
      cases hp : st.pending with
      | nil => exact h
      | cons snap rest => exact h

/-- The invariant holds along every run from the initial state. -/
lemma instructionInvariant_run (events : List Event) :
    instructionInvariant (run events) := by
  unfold run
  have hgen : ∀ st : SessionState, instructionInvariant st →
      instructionInvariant (events.foldl step st) := by
    induction events with
    | nil => intro st h; exact h
    | cons e es ih => intro st h; exact ih _ (instructionInvariant_step st e h)
  exact hgen initState rfl

/-- C6: instruction-presence invariant.  In every reachable session state a
navigation instruction is held exactly when the latest result is present
with a non-empty object list; and applying a successfully extracted result
whose object list is empty clears any held instruction (no SAFE instruction
is emitted). -/
theorem c6_instruction_invariant :
    (∀ events : List Event, instructionInvariant (run events))
    ∧ (∀ (st : SessionState) (env : Envelope) (rd : ProcessingResult)
        (snap : RequestSnapshot) (rest : List RequestSnapshot),
        st.pending = snap :: rest → extractResult env = some rd →
        rd.detected_objects = [] →
        (step st (Event.completeSuccess env)).navigationInstructions = none) := by
  constructor
  · exact instructionInvariant_run
  · intro st env rd snap rest hp he hobj
    simp only [step, hp, applyProcessSuccess, he, hobj]
    simp

/-- Trace with the camera started and one manual request in flight. -/
def c6Trace : List Event := [Event.startCameraOk, Event.manualProcessClick]

/-- Witness for c6_instruction_invariant: completing the pending request
with an empty-object result leaves no instruction. -/
theorem c6_instruction_invariant_witness :
    (step (run c6Trace) (Event.completeSuccess envelopeEmpty)).navigationInstructions
      = none :=
  c6_instruction_invariant.2 (run c6Trace) envelopeEmpty emptyResult
    { result := none } [] rfl rfl rfl

/-- C9: envelope normalization with atomic failure.  The handler accepts
the wrapped envelope (result under the data key) and the flat envelope
(result fields carried directly, with a truthy caption and an object list
present), applying the extracted result; for any other envelope shape the
completion sets the visible invalid-structure error and leaves the held
result, instruction and annotated image unchanged. -/
theorem c9_envelope_normalization (env : Envelope) :
    (∀ r : ProcessingResult, env.data = some r → extractResult env = some r)
    ∧ (∀ (c : String) (objs : List DetectedObject),
        env.data = none → env.caption = some c → c ≠ "" →
        env.detected_objects = some objs →
        extractResult env = some
          { caption := c, detected_objects := objs,
            guidance := env.guidance.getD "",
            model_used := env.model_used.getD "",
            fusion_enabled := env.fusion_enabled.getD false,
            llm_description := env.llm_description,
            attention_stats := env.attention_stats })
    ∧ (∀ (st : SessionState) (r : ProcessingResult),
        st.pending ≠ [] → env.data = some r →
        (step st (Event.completeSuccess env)).result = some r)
    ∧ (∀ st : SessionState, extractResult env = none → st.pending ≠ [] →
        (step st (Event.completeSuccess env)).result = st.result
        ∧ (step st (Event.completeSuccess env)).navigationInstructions
            = st.navigationInstructions
        ∧ (step st (Event.completeSuccess env)).annotatedImage = st.annotatedImage
        ∧ (step st (Event.completeSuccess env)).error
            = "Invalid API response structure") := by
  refine ⟨?_, ?_, ?_, ?_⟩
  · intro r hd
    simp [extractResult, hd]
  · intro c objs hd hc hne hobjs
    simp [extractResult, hd, hc, hobjs, hne]
  · intro st r hp hd
    obtain ⟨snap, rest, hrw⟩ : ∃ snap rest, st.pending = snap :: rest := by
      cases hp2 : st.pending with
      | nil => exact absurd hp2 hp
      | cons a l => exact ⟨a, l, rfl⟩
    have he : extractResult env = some r := by simp [extractResult, hd]
    simp only [step, hrw, applyProcessSuccess, he]
  · intro st he hp
    obtain ⟨snap, rest, hrw⟩ : ∃ snap rest, st.pending = snap :: rest := by
      cases hp2 : st.pending with
      | nil => exact absurd hp2 hp
      | cons a l => exact ⟨a, l, rfl⟩
    simp only [step, hrw, applyProcessSuccess, he]
    exact ⟨trivial, trivial, trivial, trivial⟩

/-- Witness for c9_envelope_normalization: the wrapped scenario C envelope
is accepted and applied at the one-request-in-flight state. -/
theorem c9_envelope_normalization_witness :
    (step (run c6Trace) (Event.completeSuccess envelopeC)).result
      = some scenarioCResult :=
  (c9_envelope_normalization envelopeC).2.2.1 (run c6Trace) scenarioCResult
    (by decide) rfl
